import Mathlib

/-!
Verification of the Fizicks discrete-time rigid-body motion engine.

Shallow embedding of the core pipeline (vector algebra, per-tick motion
update, collision detection/resolution) over ℝ. Python floats are modelled
as real numbers; Python's `int(...)` conversion is `pytrunc` (truncation
toward zero), Python's float `%` is `pymod` (floor-based remainder), and
Python's `/`, which raises ZeroDivisionError on a zero divisor, is the
fallible `pydiv`.

Sources embedded: `fizicks/data.py` (Vector, Universe), `fizicks/matter.py`
(Matter), `fizicks/motion.py` (FirstLaw/SecondLaw/ThirdLaw/Motion),
`fizicks/collision.py` (Collision), plus `visual.py`'s
`Space.has_boundaries = not toroidal` (the repository's only definition of
that attribute, read by `Matter.update`).
-/

namespace Fizicks

open scoped Classical

/-- Python's `int(r)` conversion applied to a float: truncation toward zero. -/
noncomputable def pytrunc (r : ℝ) : ℤ := if 0 ≤ r then ⌊r⌋ else ⌈r⌉

/-- Python's float remainder `x % y` for `y ≠ 0`: `x - y * ⌊x / y⌋`
(the result carries the sign of `y`). -/
noncomputable def pymod (x y : ℝ) : ℝ := x - y * ⌊x / y⌋

/-- Python's float true division `x / y`: raises ZeroDivisionError when the
divisor is zero. -/
noncomputable def pydiv (x y : ℝ) : Option ℝ := if y = 0 then none else some (x / y)

/-- Embedding of `fizicks/data.py` class `Vector`: a 3-component float triple.
The `Force`, `Position` and `Velocity` subclasses share this representation
(same fields, same operations) and are not distinguished here. -/
structure Vector where
  x : ℝ
  y : ℝ
  z : ℝ

/-- `Vector.__add__` (data.py line 21). -/
def Vector.add (a b : Vector) : Vector := ⟨a.x + b.x, a.y + b.y, a.z + b.z⟩

/-- `Vector.__sub__` (data.py line 24). -/
def Vector.sub (a b : Vector) : Vector := ⟨a.x - b.x, a.y - b.y, a.z - b.z⟩

/-- `Vector.__mul__` by a scalar (data.py line 27). -/
def Vector.smul (a : Vector) (s : ℝ) : Vector := ⟨a.x * s, a.y * s, a.z * s⟩

/-- `Vector.__truediv__` (data.py lines 30-33): each component is the float
quotient converted with `int(...)`, i.e. truncated toward zero; division by
a zero scalar raises ZeroDivisionError. -/
noncomputable def Vector.truediv (a : Vector) (s : ℝ) : Option Vector :=
  if s = 0 then none
  else some ⟨(pytrunc (a.x / s) : ℝ), (pytrunc (a.y / s) : ℝ), (pytrunc (a.z / s) : ℝ)⟩

/-- `Vector.__mod__` (data.py lines 47-52): component-wise float remainder,
passing a component through unchanged when the right-hand component is 0. -/
noncomputable def Vector.vmod (a b : Vector) : Vector :=
  ⟨if b.x ≠ 0 then pymod a.x b.x else a.x,
   if b.y ≠ 0 then pymod a.y b.y else a.y,
   if b.z ≠ 0 then pymod a.z b.z else a.z⟩

/-- `Vector.magnitude` (data.py lines 60-61): `(x**2 + y**2 + z**2) ** 0.5`. -/
noncomputable def Vector.magnitude (a : Vector) : ℝ :=
  Real.sqrt (a.x ^ 2 + a.y ^ 2 + a.z ^ 2)

/-- `Vector.normalize` (data.py lines 63-64): `self / self.magnitude()`,
so it inherits the truncating division and its ZeroDivisionError. -/
noncomputable def Vector.normalize (a : Vector) : Option Vector :=
  a.truediv a.magnitude

/-- `Vector.dot` (data.py lines 66-67). -/
def Vector.dot (a b : Vector) : ℝ := a.x * b.x + a.y * b.y + a.z * b.z

/-- Embedding of `fizicks/matter.py` class `Matter`. The `acceleration`
attribute is not set by `__init__`; it appears only when `ThirdLaw.apply`
assigns it, hence `Option`. -/
structure Matter where
  position : Vector
  velocity : Vector
  mass : ℝ
  radius : ℝ
  debt : List Vector
  acceleration : Option Vector

/-- Embedding of the universe/space record: `fizicks/data.py` class
`Universe` (lines 94-109) merged with `visual.py` class `Space` (lines
83-88), which have the same shape. Reserved coefficient fields that no
embedded code path reads (`c`, `viscosity`, `friction`, `air_resistance*`)
are omitted. -/
structure Universe where
  dimensions : Vector
  toroidal : Bool
  gravity : Vector
  restitution : ℝ
  objects : List Matter

/-- The `has_boundaries` attribute read by `Matter.update`: the repository's
only definition is `visual.py` line 87, `self.has_boundaries = not toroidal`. -/
def Universe.has_boundaries (u : Universe) : Bool := !u.toroidal

/-- `Matter.apply_force` (matter.py lines 14-23): appends `force / self.mass`
("Accumulate acceleration (force / mass)") to the debt queue; the truncating
vector division raises ZeroDivisionError when the mass is zero. -/
noncomputable def Matter.apply_force (o : Matter) (force : Vector) : Option Matter :=
  (force.truediv o.mass).map fun q => { o with debt := o.debt ++ [q] }

/-- Modelled from the spec: `Matter.add_debt`, which `Collision._resolve_objects`
calls, is absent from the source tree. Per the spec's §4.4 and glossary,
debt is a queue of pending force contributions that the first-law pass
drains, so `add_debt` appends the vector to the queue unchanged. -/
def Matter.add_debt (o : Matter) (v : Vector) : Matter :=
  { o with debt := o.debt ++ [v] }

/-- `Matter.update` (matter.py lines 25-39): drain the debt queue into the
velocity in order, integrate the position, wrap it component-wise by the
area's dimensions when the area has boundaries, then clear the debt queue. -/
noncomputable def Matter.update (o : Matter) (area : Universe) : Matter :=
  let v := o.debt.foldl Vector.add o.velocity
  let p := o.position.add v
  { o with
    velocity := v
    position := if area.has_boundaries then p.vmod area.dimensions else p
    debt := [] }

/-- One axis of the loop body of `Matter.resolve_collision_with_border`
(matter.py lines 78-84): clamp the offending side and reflect the velocity
component scaled by the restitution coefficient. -/
noncomputable def resolve_axis (p v radius dim e : ℝ) : ℝ × ℝ :=
  if p - radius < 0 then (radius, -v * e)
  else if p + radius > dim then (dim - radius, -v * e)
  else (p, v)

/-- `Matter.resolve_collision_with_border` (matter.py lines 63-84): the loop
over the three position components, unrolled (each iteration touches only
its own axis). `e` is the `restitution` parameter (default 1.0 in the
source). -/
noncomputable def Matter.resolve_collision_with_border
    (o : Matter) (area : Universe) (e : ℝ) : Matter :=
  let rx := resolve_axis o.position.x o.velocity.x o.radius area.dimensions.x e
  let ry := resolve_axis o.position.y o.velocity.y o.radius area.dimensions.y e
  let rz := resolve_axis o.position.z o.velocity.z o.radius area.dimensions.z e
  { o with position := ⟨rx.1, ry.1, rz.1⟩, velocity := ⟨rx.2, ry.2, rz.2⟩ }

namespace Collision

/-- `Collision._detect_objects` (collision.py lines 72-90): overlap iff the
distance between the two positions is strictly below the sum of the radii. -/
noncomputable def detect_objects (o1 o2 : Matter) : Prop :=
  (o1.position.sub o2.position).magnitude < o1.radius + o2.radius

/-- The first body's post-collision normal velocity component
(collision.py lines 118-120). -/
noncomputable def v1n_after (m1 m2 v1n v2n : ℝ) : Option ℝ :=
  pydiv (v1n * (m1 - m2) + 2 * m2 * v2n) (m1 + m2)

/-- The second body's post-collision normal velocity component
(collision.py lines 121-123). -/
noncomputable def v2n_after (m1 m2 v1n v2n : ℝ) : Option ℝ :=
  pydiv (v2n * (m2 - m1) + 2 * m1 * v1n) (m1 + m2)

/-- `Collision._resolve_objects` (collision.py lines 92-134): decompose both
velocities along the unit normal and its 90°-rotated tangent
(`Vector(-normal.y, normal.x)`, z defaulting to 0.0), update the normal
components with the 1-D elastic formulas, recompose, and enqueue each
recomposed vector as a debt on its body. Fails (ZeroDivisionError) when the
two positions coincide or the masses sum to zero. -/
noncomputable def resolve_objects (o1 o2 : Matter) : Option (Matter × Matter) :=
  match (o2.position.sub o1.position).normalize with
  | none => none
  | some normal =>
    let tangent : Vector := ⟨-normal.y, normal.x, 0⟩
    let v1n := normal.dot o1.velocity
    let v1t := tangent.dot o1.velocity
    let v2n := normal.dot o2.velocity
    let v2t := tangent.dot o2.velocity
    match v1n_after o1.mass o2.mass v1n v2n, v2n_after o1.mass o2.mass v1n v2n with
    | some a, some b =>
      some (o1.add_debt ((normal.smul a).add (tangent.smul v1t)),
            o2.add_debt ((normal.smul b).add (tangent.smul v2t)))
    | _, _ => none

/-- `Collision._detect_border` (collision.py lines 136-147): never fires in a
toroidal universe; otherwise fires when the x or y position coordinate
leaves `[0, dimensions]` (z is not checked by the source). -/
noncomputable def detect_border (o : Matter) (u : Universe) : Prop :=
  if u.toroidal then False
  else
    o.position.x < 0 ∨ o.position.x > u.dimensions.x ∨
    o.position.y < 0 ∨ o.position.y > u.dimensions.y

/-- `Collision._resolve_border` (collision.py lines 149-162): in a toroidal
universe, clamp x then y into `[0, dimensions]`; in a non-toroidal universe
the function body does nothing. -/
noncomputable def resolve_border (o : Matter) (u : Universe) : Matter :=
  if u.toroidal then
    let px := if o.position.x < 0 then 0
      else if o.position.x > u.dimensions.x then u.dimensions.x
      else o.position.x
    let py := if o.position.y < 0 then 0
      else if o.position.y > u.dimensions.y then u.dimensions.y
      else o.position.y
    { o with position := ⟨px, py, o.position.z⟩ }
  else o

end Collision

/-- `FirstLaw.apply` (motion.py lines 10-25): `velocity ← velocity + force`. -/
def FirstLaw.apply (o : Matter) (f : Vector) : Matter :=
  { o with velocity := o.velocity.add f }

/-- `SecondLaw.apply` (motion.py lines 28-41): `position ← position + velocity`. -/
def SecondLaw.apply (o : Matter) : Matter :=
  { o with position := o.position.add o.velocity }

/-- `ThirdLaw.apply` (motion.py lines 44-57): `acceleration ← velocity / mass`,
raising ZeroDivisionError on a zero mass. -/
noncomputable def ThirdLaw.apply (o : Matter) : Option Matter :=
  (o.velocity.truediv o.mass).map fun a => { o with acceleration := some a }

/-- The pairwise-collision loop of `Motion.update` (motion.py lines 86-89),
threaded over the list of the universe's other objects (the source skips
`other_object is not object` by identity; here the list already excludes
the updated body). Returns the updated body and the updated others. -/
noncomputable def Motion.collidePairs :
    Matter → List Matter → Option (Matter × List Matter)
  | o, [] => some (o, [])
  | o, other :: rest =>
    if Collision.detect_objects o other then
      match Collision.resolve_objects o other with
      | none => none
      | some (o', other') =>
        match Motion.collidePairs o' rest with
        | none => none
        | some (o'', rest') => some (o'', other' :: rest')
    else
      match Motion.collidePairs o rest with
      | none => none
      | some (o', rest') => some (o', other :: rest')

/-- `Motion.update` (motion.py lines 70-96): border collision check/resolve,
pairwise collision check/resolve against the universe's other objects, then
the three laws (the `if object.debt:` guard is the empty fold). Note the
source never clears the debt queue here. -/
noncomputable def Motion.update (o : Matter) (u : Universe) (others : List Matter) :
    Option (Matter × List Matter) :=
  let o1 := if Collision.detect_border o u then Collision.resolve_border o u else o
  match Motion.collidePairs o1 others with
  | none => none
  | some (o2, others') =>
    let o3 := o2.debt.foldl FirstLaw.apply o2
    let o4 := SecondLaw.apply o3
    match ThirdLaw.apply o4 with
    | none => none
    | some o5 => some (o5, others')

/-- The public operations a host may perform on a body between ticks, used to
state the debt-queue lifecycle invariant. -/
inductive BodyOp where
  | applyForceOp (f : Vector)
  | addDebtOp (v : Vector)
  | updateOp (a : Universe)

/-- Run one body operation. -/
noncomputable def runOp (o : Matter) : BodyOp → Option Matter
  | .applyForceOp f => o.apply_force f
  | .addDebtOp v => some (o.add_debt v)
  | .updateOp a => some (o.update a)

/-- Run a sequence of body operations. -/
noncomputable def runOps (o : Matter) : List BodyOp → Option Matter
  | [] => some o
  | op :: rest => (runOp o op).bind fun o' => runOps o' rest

/-- Every component of the vector is an integer value. -/
def IntComponents (w : Vector) : Prop :=
  (∃ a : ℤ, w.x = a) ∧ (∃ b : ℤ, w.y = b) ∧ (∃ c : ℤ, w.z = c)

/-- First body of the collision example worked out in collision.py's own
`__notes__` docstring: position (2,3), velocity (5,0), mass 2 (radius 2
chosen so the two bodies overlap). -/
def c1Body1 : Matter := ⟨⟨2, 3, 0⟩, ⟨5, 0, 0⟩, 2, 2, [], none⟩

/-- Second body of the collision.py `__notes__` example: position (5,3),
velocity (-2,0), mass 3. -/
def c1Body2 : Matter := ⟨⟨5, 3, 0⟩, ⟨-2, 0, 0⟩, 3, 2, [], none⟩

/-- A plain bounded universe large enough that the example bodies are away
from every border. -/
def c1U : Universe := ⟨⟨100, 100, 100⟩, false, ⟨0, 0, 0⟩, 1, []⟩

/-- A body of mass 2 with an empty debt queue, for the apply_force examples. -/
def c2Body : Matter := ⟨⟨0, 0, 0⟩, ⟨1, 2, 3⟩, 2, 1, [], none⟩

/-- A body already past the x boundary of a 100-cube, moving. -/
def c7Body : Matter := ⟨⟨150, 50, 0⟩, ⟨1, 2, 3⟩, 1, 1, [], none⟩

/-- A toroidal 100-cube universe. -/
def c7U : Universe := ⟨⟨100, 100, 100⟩, true, ⟨0, 0, 0⟩, 1, []⟩

/-- A force-free body inside a bounded 100-cube universe. -/
def c9Body : Matter := ⟨⟨10, 10, 0⟩, ⟨1, 0, 0⟩, 1, 1, [], none⟩

/-- A bounded (non-toroidal) 100-cube universe with no other objects. -/
def c9U : Universe := ⟨⟨100, 100, 100⟩, false, ⟨0, 0, 0⟩, 1, []⟩

theorem pytrunc_of_nonneg {r : ℝ} (h : 0 ≤ r) : pytrunc r = ⌊r⌋ := if_pos h

theorem pytrunc_of_neg {r : ℝ} (h : r < 0) : pytrunc r = ⌈r⌉ := if_neg (not_le.mpr h)

theorem pytrunc_cast_abs_le (r : ℝ) : |(pytrunc r : ℝ)| ≤ |r| := by
  rcases le_or_lt 0 r with h | h
  · rw [pytrunc_of_nonneg h, abs_of_nonneg h,
      abs_of_nonneg (by exact_mod_cast Int.floor_nonneg.mpr h)]
    exact Int.floor_le r
  · rw [pytrunc_of_neg h, abs_of_neg h,
      abs_of_nonpos (by exact_mod_cast Int.ceil_le.mpr (by exact_mod_cast h.le : r ≤ ((0 : ℤ) : ℝ)))]
    exact neg_le_neg (Int.le_ceil r)

theorem pytrunc_cast_sub_abs_lt_one (r : ℝ) : |(pytrunc r : ℝ) - r| < 1 := by
  rcases le_or_lt 0 r with h | h
  · rw [pytrunc_of_nonneg h, abs_sub_lt_iff]
    constructor
    · linarith [Int.floor_le r]
    · linarith [Int.lt_floor_add_one r]
  · rw [pytrunc_of_neg h, abs_sub_lt_iff]
    constructor
    · linarith [Int.ceil_lt_add_one r]
    · linarith [Int.le_ceil r]

theorem pymod_eq_fract {x y : ℝ} (hy : y ≠ 0) :
    pymod x y = y * Int.fract (x / y) := by
  rw [pymod, Int.fract, mul_sub, mul_div_cancel₀ x hy]

theorem pymod_nonneg {x y : ℝ} (hy : 0 < y) : 0 ≤ pymod x y := by
  rw [pymod_eq_fract hy.ne']
  exact mul_nonneg hy.le (Int.fract_nonneg _)

theorem pymod_lt {x y : ℝ} (hy : 0 < y) : pymod x y < y := by
  rw [pymod_eq_fract hy.ne']
  calc y * Int.fract (x / y) < y * 1 :=
        mul_lt_mul_of_pos_left (Int.fract_lt_one _) hy
    _ = y := mul_one y

theorem truediv_eq (a : Vector) {s : ℝ} (hs : s ≠ 0) :
    a.truediv s =
      some ⟨(pytrunc (a.x / s) : ℝ), (pytrunc (a.y / s) : ℝ), (pytrunc (a.z / s) : ℝ)⟩ :=
  if_neg hs

theorem runOps_append (o : Matter) (l1 l2 : List BodyOp) :
    runOps o (l1 ++ l2) = (runOps o l1).bind fun m => runOps m l2 := by
  induction l1 generalizing o with
  | nil => simp [runOps]
  | cons op rest ih =>
    simp only [List.cons_append, runOps]
    cases runOp o op with
    | none => simp
    | some o' => simp [ih]

theorem truediv_some {a : Vector} {s : ℝ} {w : Vector} (h : a.truediv s = some w) :
    s ≠ 0 ∧ w = ⟨(pytrunc (a.x / s) : ℝ), (pytrunc (a.y / s) : ℝ), (pytrunc (a.z / s) : ℝ)⟩ := by
  by_cases hs : s = 0
  · rw [Vector.truediv, if_pos hs] at h
    cases h
  · rw [truediv_eq _ hs] at h
    exact ⟨hs, (Option.some.inj h).symm⟩

theorem magnitude_3_0_0 : (Vector.mk 3 0 0).magnitude = 3 := by
  rw [Vector.magnitude]
  rw [show ((3:ℝ) ^ 2 + 0 ^ 2 + 0 ^ 2) = 3 ^ 2 by norm_num,
    Real.sqrt_sq (by norm_num : (0:ℝ) ≤ 3)]

theorem magnitude_neg3_0_0 : (Vector.mk (-3) 0 0).magnitude = 3 := by
  rw [Vector.magnitude]
  rw [show (((-3):ℝ) ^ 2 + 0 ^ 2 + 0 ^ 2) = 3 ^ 2 by norm_num,
    Real.sqrt_sq (by norm_num : (0:ℝ) ≤ 3)]

theorem normalize_3_0_0 : (Vector.mk 3 0 0).normalize = some ⟨1, 0, 0⟩ := by
  rw [Vector.normalize, magnitude_3_0_0, truediv_eq _ (by norm_num : (3:ℝ) ≠ 0)]
  norm_num [pytrunc_of_nonneg]

theorem magnitude_1_1_0 : (Vector.mk 1 1 0).magnitude = Real.sqrt 2 := by
  rw [Vector.magnitude]
  norm_num

theorem resolve_objects_c1_eq : Collision.resolve_objects c1Body1 c1Body2 =
    some (⟨⟨2, 3, 0⟩, ⟨5, 0, 0⟩, 2, 2, [⟨-17/5, 0, 0⟩], none⟩,
          ⟨⟨5, 3, 0⟩, ⟨-2, 0, 0⟩, 3, 2, [⟨18/5, 0, 0⟩], none⟩) := by
  rw [Collision.resolve_objects]
  rw [show (Vector.sub c1Body2.position c1Body1.position) = ⟨3, 0, 0⟩ by
    simp [Vector.sub, c1Body1, c1Body2]; norm_num]
  rw [normalize_3_0_0]
  simp only [Vector.dot, Collision.v1n_after, Collision.v2n_after, pydiv, c1Body1, c1Body2,
    Matter.add_debt, Vector.smul, Vector.add]
  norm_num

theorem detect_border_c1_not : ¬ Collision.detect_border c1Body1 c1U := by
  simp only [Collision.detect_border, c1Body1, c1U]
  norm_num

theorem detect_objects_c1_lt : Collision.detect_objects c1Body1 c1Body2 := by
  rw [Collision.detect_objects]
  rw [show (Vector.sub c1Body1.position c1Body2.position) = ⟨-3, 0, 0⟩ by
    simp [Vector.sub, c1Body1, c1Body2]; norm_num]
  rw [magnitude_neg3_0_0]
  show (3:ℝ) < c1Body1.radius + c1Body2.radius
  simp [c1Body1, c1Body2]
  norm_num

theorem motion_update_c1_eq : Motion.update c1Body1 c1U [c1Body2] =
    some (⟨⟨18/5, 3, 0⟩, ⟨8/5, 0, 0⟩, 2, 2, [⟨-17/5, 0, 0⟩], some ⟨0, 0, 0⟩⟩,
          [⟨⟨5, 3, 0⟩, ⟨-2, 0, 0⟩, 3, 2, [⟨18/5, 0, 0⟩], none⟩]) := by
  rw [Motion.update]
  rw [if_neg detect_border_c1_not]
  rw [show Motion.collidePairs c1Body1 [c1Body2] =
      some (⟨⟨2, 3, 0⟩, ⟨5, 0, 0⟩, 2, 2, [⟨-17/5, 0, 0⟩], none⟩,
            [⟨⟨5, 3, 0⟩, ⟨-2, 0, 0⟩, 3, 2, [⟨18/5, 0, 0⟩], none⟩]) by
    simp only [Motion.collidePairs, if_pos detect_objects_c1_lt, resolve_objects_c1_eq]]
  simp only [List.foldl, FirstLaw.apply, SecondLaw.apply, ThirdLaw.apply, Vector.add]
  rw [truediv_eq _ (by norm_num : (2:ℝ) ≠ 0)]
  simp only [Option.map_some']
  norm_num [pytrunc_of_nonneg, Int.floor_eq_zero_iff]

theorem motion_update_no_collision (o : Matter) (u : Universe)
    (hdebt : o.debt = []) (hm : o.mass ≠ 0)
    (h1 : ¬ Collision.detect_border o u) :
    Motion.update o u [] =
      some ({ o with
        position := o.position.add o.velocity
        acceleration := some ⟨(pytrunc (o.velocity.x / o.mass) : ℝ),
          (pytrunc (o.velocity.y / o.mass) : ℝ), (pytrunc (o.velocity.z / o.mass) : ℝ)⟩ }, []) := by
  rw [Motion.update, if_neg h1]
  simp only [Motion.collidePairs]
  rw [hdebt]
  simp only [List.foldl]
  rw [SecondLaw.apply, ThirdLaw.apply, truediv_eq _ hm]
  simp [hdebt]

/-- C1 (code bug evidence): on the example worked out in collision.py's own
`__notes__` docstring — which asserts that body 1's velocity after the
collision is the recomposed (-3.4, 0) — the engine enqueues the recomposed
velocity (-17/5, 0, 0) as a debt and the first-law pass ADDS it to the
pre-collision velocity (5, 0, 0), so the tick ends with velocity
(8/5, 0, 0), not the recomposed velocity; and the debt queue still holds
the entry afterwards (Motion.update never clears it), so it would be added
again on a further tick. This refutes the claim that the net end-of-tick
velocity equals the recomposed velocity applied exactly once. -/
theorem c1_collision_velocity_added_not_assigned :
    Collision.resolve_objects c1Body1 c1Body2 =
      some (⟨⟨2, 3, 0⟩, ⟨5, 0, 0⟩, 2, 2, [⟨-17/5, 0, 0⟩], none⟩,
            ⟨⟨5, 3, 0⟩, ⟨-2, 0, 0⟩, 3, 2, [⟨18/5, 0, 0⟩], none⟩) ∧
    Motion.update c1Body1 c1U [c1Body2] =
      some (⟨⟨18/5, 3, 0⟩, ⟨8/5, 0, 0⟩, 2, 2, [⟨-17/5, 0, 0⟩], some ⟨0, 0, 0⟩⟩,
            [⟨⟨5, 3, 0⟩, ⟨-2, 0, 0⟩, 3, 2, [⟨18/5, 0, 0⟩], none⟩]) ∧
    c1Body1.velocity.add ⟨-17/5, 0, 0⟩ = ⟨8/5, 0, 0⟩ ∧
    (Vector.mk (8/5) 0 0) ≠ ⟨-17/5, 0, 0⟩ := by
  refine ⟨resolve_objects_c1_eq, motion_update_c1_eq, ?_, ?_⟩
  · simp [Vector.add, c1Body1]
    norm_num
  · intro h
    have := congrArg Vector.x h
    norm_num at this

/-- C2 (amended): `apply_force f` appends the truncated per-component
quotient `f / mass` — not `f` itself — to the debt queue, growing it by
one, and leaves velocity, position, mass and radius unchanged. -/
theorem c2_apply_force_appends_quotient (o : Matter) (f : Vector) (h : o.mass ≠ 0) :
    ∃ o', o.apply_force f = some o' ∧
      o'.debt = o.debt ++
        [⟨(pytrunc (f.x / o.mass) : ℝ), (pytrunc (f.y / o.mass) : ℝ),
          (pytrunc (f.z / o.mass) : ℝ)⟩] ∧
      o'.debt.length = o.debt.length + 1 ∧
      o'.velocity = o.velocity ∧ o'.position = o.position ∧
      o'.mass = o.mass ∧ o'.radius = o.radius := by
  rw [Matter.apply_force, truediv_eq f h]
  exact ⟨_, rfl, rfl, by simp, rfl, rfl, rfl, rfl⟩

/-- C2 witness: the amended statement at a concrete mass-2 body and the
force (1, 1, 1). -/
theorem c2_apply_force_appends_quotient_witness : c2Body.mass ≠ 0 ∧
    ∃ o', c2Body.apply_force ⟨1, 1, 1⟩ = some o' ∧
      o'.debt = c2Body.debt ++
        [⟨(pytrunc ((Vector.mk 1 1 1).x / c2Body.mass) : ℝ),
          (pytrunc ((Vector.mk 1 1 1).y / c2Body.mass) : ℝ),
          (pytrunc ((Vector.mk 1 1 1).z / c2Body.mass) : ℝ)⟩] ∧
      o'.debt.length = c2Body.debt.length + 1 ∧
      o'.velocity = c2Body.velocity ∧ o'.position = c2Body.position ∧
      o'.mass = c2Body.mass ∧ o'.radius = c2Body.radius := by
  have h0 : c2Body.mass ≠ 0 := by norm_num [c2Body]
  exact ⟨h0, c2_apply_force_appends_quotient c2Body ⟨1, 1, 1⟩ h0⟩

/-- C2 counterexample: on a mass-2 body, `apply_force (1,1,1)` enqueues
(0, 0, 0) — the truncated quotient — not the force (1,1,1) itself. -/
theorem c2_apply_force_counterexample :
    (c2Body.apply_force ⟨1, 1, 1⟩).map Matter.debt = some [⟨0, 0, 0⟩] ∧
    (Vector.mk 0 0 0) ≠ ⟨1, 1, 1⟩ := by
  constructor
  · rw [Matter.apply_force, truediv_eq _ (show c2Body.mass ≠ 0 by norm_num [c2Body])]
    have h12 : pytrunc ((1:ℝ) / 2) = 0 := by
      rw [pytrunc_of_nonneg (by norm_num), Int.floor_eq_zero_iff]
      constructor <;> norm_num
    simp only [Option.map_some']
    show some (c2Body.debt ++ [_]) = _
    simp [c2Body]
    norm_num [h12]
  · intro h
    have := congrArg Vector.x h
    norm_num at this

/-- C3: the debt queue is empty immediately after any completed
`Matter.update`, and over any sequence of body operations it can be
non-empty only when the initial queue was non-empty and nothing ran, or
when the last operation was an `apply_force`/`add_debt` (never right
after an `update`). -/
theorem c3_debt_empty_after_update :
    (∀ (o : Matter) (a : Universe), (o.update a).debt = []) ∧
    (∀ (o : Matter) (ops : List BodyOp) (a : Universe) (o' : Matter),
       runOps o (ops ++ [BodyOp.updateOp a]) = some o' → o'.debt = []) ∧
    (∀ (o : Matter) (ops : List BodyOp) (o' : Matter),
       runOps o ops = some o' → o'.debt ≠ [] →
         (ops = [] ∧ o.debt ≠ []) ∨
         (∃ pre f, ops = pre ++ [BodyOp.applyForceOp f]) ∨
         (∃ pre v, ops = pre ++ [BodyOp.addDebtOp v])) := by
  have hupd : ∀ (o : Matter) (a : Universe), (o.update a).debt = [] := by
    intro o a
    simp [Matter.update]
  have hlast : ∀ (o : Matter) (ops : List BodyOp) (a : Universe) (o' : Matter),
      runOps o (ops ++ [BodyOp.updateOp a]) = some o' → o'.debt = [] := by
    intro o ops a o' h
    rw [runOps_append] at h
    cases hmid : runOps o ops with
    | none => rw [hmid] at h; cases h
    | some m =>
      rw [hmid] at h
      simp only [Option.bind_some, runOps, runOp, Option.bind_some] at h
      cases h
      exact hupd m a
  refine ⟨hupd, hlast, ?_⟩
  intro o ops o' h hne
  rcases List.eq_nil_or_concat ops with rfl | ⟨pre, op, hops⟩
  · left
    simp only [runOps] at h
    cases h
    exact ⟨rfl, hne⟩
  · rw [List.concat_eq_append] at hops
    subst hops
    cases op with
    | updateOp a => exact absurd (hlast o pre a o' h) hne
    | applyForceOp f => exact Or.inr (Or.inl ⟨pre, f, rfl⟩)
    | addDebtOp v => exact Or.inr (Or.inr ⟨pre, v, rfl⟩)

/-- C4 (amended): `normalize` raises DivisionByZero exactly when the
magnitude is 0; when it succeeds, the truncating component division bounds
the result's magnitude by 1 but does not make it exactly 1. -/
theorem c4_normalize_bounded_amended (v : Vector) :
    (v.normalize = none ↔ v.magnitude = 0) ∧
    (∀ w, v.normalize = some w → w.magnitude ≤ 1) := by
  constructor
  · rw [Vector.normalize, Vector.truediv]
    split_ifs with h <;> simp [h]
  · intro w hw
    obtain ⟨hm, hweq⟩ := truediv_some hw
    have hS : 0 ≤ v.x ^ 2 + v.y ^ 2 + v.z ^ 2 := by positivity
    have hmagsq : v.magnitude ^ 2 = v.x ^ 2 + v.y ^ 2 + v.z ^ 2 := Real.sq_sqrt hS
    have hSne : v.x ^ 2 + v.y ^ 2 + v.z ^ 2 ≠ 0 := by
      intro h0
      exact hm (by rw [Vector.magnitude, h0, Real.sqrt_zero])
    have key : ∀ r : ℝ, ((pytrunc (r / v.magnitude) : ℝ)) ^ 2 ≤ (r / v.magnitude) ^ 2 := by
      intro r
      calc ((pytrunc (r / v.magnitude) : ℝ)) ^ 2
          = |(pytrunc (r / v.magnitude) : ℝ)| ^ 2 := (sq_abs _).symm
        _ ≤ |r / v.magnitude| ^ 2 :=
            pow_le_pow_left₀ (abs_nonneg _) (pytrunc_cast_abs_le _) 2
        _ = (r / v.magnitude) ^ 2 := sq_abs _
    rw [Vector.magnitude]
    apply Real.sqrt_le_one.mpr
    have hsum : (w.x ^ 2 + w.y ^ 2 + w.z ^ 2) ≤
        (v.x / v.magnitude) ^ 2 + (v.y / v.magnitude) ^ 2 + (v.z / v.magnitude) ^ 2 := by
      rw [hweq]
      exact add_le_add (add_le_add (key v.x) (key v.y)) (key v.z)
    have heq : (v.x / v.magnitude) ^ 2 + (v.y / v.magnitude) ^ 2 +
        (v.z / v.magnitude) ^ 2 = 1 := by
      rw [div_pow, div_pow, div_pow, hmagsq]
      field_simp
    linarith

/-- C4 counterexample: the vector (1, 1, 0) has non-zero magnitude, yet
`normalize` returns (0, 0, 0) (each component 1/sqrt 2 truncates to 0),
whose magnitude is 0, not 1. -/
theorem c4_normalize_counterexample :
    (Vector.mk 1 1 0).magnitude ≠ 0 ∧
    (Vector.mk 1 1 0).normalize = some ⟨0, 0, 0⟩ ∧
    (Vector.mk 0 0 0).magnitude = 0 ∧ (0 : ℝ) ≠ 1 := by
  have hs2 : (0:ℝ) < Real.sqrt 2 := Real.sqrt_pos.mpr (by norm_num)
  have h1lt : (1:ℝ) < Real.sqrt 2 := by
    nlinarith [Real.sq_sqrt (by norm_num : (0:ℝ) ≤ 2)]
  refine ⟨?_, ?_, ?_, by norm_num⟩
  · rw [magnitude_1_1_0]
    exact hs2.ne'
  · rw [Vector.normalize, magnitude_1_1_0, truediv_eq _ hs2.ne']
    have hx : pytrunc (1 / Real.sqrt 2) = 0 := by
      rw [pytrunc_of_nonneg (by positivity), Int.floor_eq_zero_iff]
      constructor
      · positivity
      · rw [div_lt_one hs2]
        exact h1lt
    have hz : pytrunc (0 / Real.sqrt 2) = 0 := by
      rw [zero_div, pytrunc_of_nonneg le_rfl, Int.floor_zero]
    rw [hx, hz]
    norm_num
  · rw [Vector.magnitude]
    norm_num

/-- C5: the post-collision normal components computed by body-vs-body
resolution conserve momentum exactly: for positive masses,
m1*v1n + m2*v2n = m1*v1n_after + m2*v2n_after. -/
theorem c5_momentum_conserved (m1 m2 v1n v2n : ℝ) (h1 : 0 < m1) (h2 : 0 < m2) :
    ∃ a b, Collision.v1n_after m1 m2 v1n v2n = some a ∧
      Collision.v2n_after m1 m2 v1n v2n = some b ∧
      m1 * v1n + m2 * v2n = m1 * a + m2 * b := by
  have hm : m1 + m2 ≠ 0 := by positivity
  have e1 : Collision.v1n_after m1 m2 v1n v2n =
      some ((v1n * (m1 - m2) + 2 * m2 * v2n) / (m1 + m2)) := by
    rw [Collision.v1n_after, pydiv, if_neg hm]
  have e2 : Collision.v2n_after m1 m2 v1n v2n =
      some ((v2n * (m2 - m1) + 2 * m1 * v1n) / (m1 + m2)) := by
    rw [Collision.v2n_after, pydiv, if_neg hm]
  refine ⟨_, _, e1, e2, ?_⟩
  field_simp
  ring

/-- C5 witness: momentum conservation at the spec's concrete example,
masses 2 and 3 with normal velocities 5 and -2. -/
theorem c5_momentum_conserved_witness : (0:ℝ) < 2 ∧ (0:ℝ) < 3 ∧
    ∃ a b, Collision.v1n_after 2 3 5 (-2) = some a ∧
      Collision.v2n_after 2 3 5 (-2) = some b ∧
      (2:ℝ) * 5 + 3 * (-2) = 2 * a + 3 * b :=
  ⟨by norm_num, by norm_num, c5_momentum_conserved 2 3 5 (-2) (by norm_num) (by norm_num)⟩

/-- C6: resolving a boundary collision with
`Matter.resolve_collision_with_border` (the clamp-and-bounce resolver the
spec adopts as canonical) clamps each offending axis so the body's edge
rests exactly on the boundary — `position.axis = radius` on the low side,
`dimensions.axis - radius` on the high side — and replaces that axis's
velocity component by its negation scaled by the restitution coefficient
`e` (so `e = 1` reverses the sign with unchanged magnitude), while a
non-offending axis keeps both its position and velocity components. -/
theorem c6_border_clamp_and_bounce (o : Matter) (area : Universe) (e : ℝ) :
    ((o.position.x - o.radius < 0 →
        (o.resolve_collision_with_border area e).position.x = o.radius ∧
        (o.resolve_collision_with_border area e).velocity.x = -o.velocity.x * e) ∧
     (¬(o.position.x - o.radius < 0) → o.position.x + o.radius > area.dimensions.x →
        (o.resolve_collision_with_border area e).position.x = area.dimensions.x - o.radius ∧
        (o.resolve_collision_with_border area e).velocity.x = -o.velocity.x * e) ∧
     (¬(o.position.x - o.radius < 0) → ¬(o.position.x + o.radius > area.dimensions.x) →
        (o.resolve_collision_with_border area e).position.x = o.position.x ∧
        (o.resolve_collision_with_border area e).velocity.x = o.velocity.x)) ∧
    ((o.position.y - o.radius < 0 →
        (o.resolve_collision_with_border area e).position.y = o.radius ∧
        (o.resolve_collision_with_border area e).velocity.y = -o.velocity.y * e) ∧
     (¬(o.position.y - o.radius < 0) → o.position.y + o.radius > area.dimensions.y →
        (o.resolve_collision_with_border area e).position.y = area.dimensions.y - o.radius ∧
        (o.resolve_collision_with_border area e).velocity.y = -o.velocity.y * e) ∧
     (¬(o.position.y - o.radius < 0) → ¬(o.position.y + o.radius > area.dimensions.y) →
        (o.resolve_collision_with_border area e).position.y = o.position.y ∧
        (o.resolve_collision_with_border area e).velocity.y = o.velocity.y)) ∧
    ((o.position.z - o.radius < 0 →
        (o.resolve_collision_with_border area e).position.z = o.radius ∧
        (o.resolve_collision_with_border area e).velocity.z = -o.velocity.z * e) ∧
     (¬(o.position.z - o.radius < 0) → o.position.z + o.radius > area.dimensions.z →
        (o.resolve_collision_with_border area e).position.z = area.dimensions.z - o.radius ∧
        (o.resolve_collision_with_border area e).velocity.z = -o.velocity.z * e) ∧
     (¬(o.position.z - o.radius < 0) → ¬(o.position.z + o.radius > area.dimensions.z) →
        (o.resolve_collision_with_border area e).position.z = o.position.z ∧
        (o.resolve_collision_with_border area e).velocity.z = o.velocity.z)) := by
  unfold Matter.resolve_collision_with_border resolve_axis
  refine ⟨⟨?_, ?_, ?_⟩, ⟨?_, ?_, ?_⟩, ⟨?_, ?_, ?_⟩⟩
  · intro h; rw [if_pos h]; exact ⟨rfl, rfl⟩
  · intro h1 h2; rw [if_neg h1, if_pos h2]; exact ⟨rfl, rfl⟩
  · intro h1 h2; rw [if_neg h1, if_neg h2]; exact ⟨rfl, rfl⟩
  · intro h; rw [if_pos h]; exact ⟨rfl, rfl⟩
  · intro h1 h2; rw [if_neg h1, if_pos h2]; exact ⟨rfl, rfl⟩
  · intro h1 h2; rw [if_neg h1, if_neg h2]; exact ⟨rfl, rfl⟩
  · intro h; rw [if_pos h]; exact ⟨rfl, rfl⟩
  · intro h1 h2; rw [if_neg h1, if_pos h2]; exact ⟨rfl, rfl⟩
  · intro h1 h2; rw [if_neg h1, if_neg h2]; exact ⟨rfl, rfl⟩

/-- C7 (amended): in a toroidal universe boundary collision detection never
fires, but no modulo wrap occurs either, because `has_boundaries` is
`not toroidal`; the component-wise modulo of the second-law step fires
exactly when the area has boundaries (is non-toroidal), keeps each
positive-dimension axis inside `[0, dimensions]`, and the wrap never
changes the velocity (which is always the old velocity plus the drained
debts, and exactly the old velocity when the debt queue is empty). -/
theorem c7_wrap_amended (u : Universe) (b : Matter) :
    (u.toroidal = true → ¬ Collision.detect_border b u) ∧
    (u.toroidal = true →
      (b.update u).position = b.position.add (b.debt.foldl Vector.add b.velocity)) ∧
    (u.toroidal = false →
      (b.update u).position =
        (b.position.add (b.debt.foldl Vector.add b.velocity)).vmod u.dimensions) ∧
    (u.toroidal = false → 0 < u.dimensions.x →
      0 ≤ (b.update u).position.x ∧ (b.update u).position.x ≤ u.dimensions.x) ∧
    (u.toroidal = false → 0 < u.dimensions.y →
      0 ≤ (b.update u).position.y ∧ (b.update u).position.y ≤ u.dimensions.y) ∧
    (u.toroidal = false → 0 < u.dimensions.z →
      0 ≤ (b.update u).position.z ∧ (b.update u).position.z ≤ u.dimensions.z) ∧
    ((b.update u).velocity = b.debt.foldl Vector.add b.velocity) ∧
    (b.debt = [] → (b.update u).velocity = b.velocity) := by
  refine ⟨?_, ?_, ?_, ?_, ?_, ?_, ?_, ?_⟩
  · intro ht
    simp [Collision.detect_border, ht]
  · intro ht
    simp [Matter.update, Universe.has_boundaries, ht]
  · intro hf
    simp [Matter.update, Universe.has_boundaries, hf]
  · intro hf hx
    simp only [Matter.update, Universe.has_boundaries, hf, Bool.not_false, if_pos]
    rw [Vector.vmod]
    simp only [if_pos hx.ne']
    exact ⟨pymod_nonneg hx, (pymod_lt hx).le⟩
  · intro hf hy
    simp only [Matter.update, Universe.has_boundaries, hf, Bool.not_false, if_pos]
    rw [Vector.vmod]
    simp only [if_pos hy.ne']
    exact ⟨pymod_nonneg hy, (pymod_lt hy).le⟩
  · intro hf hz
    simp only [Matter.update, Universe.has_boundaries, hf, Bool.not_false, if_pos]
    rw [Vector.vmod]
    simp only [if_pos hz.ne']
    exact ⟨pymod_nonneg hz, (pymod_lt hz).le⟩
  · rfl
  · intro hd
    simp [Matter.update, hd]

/-- C7 counterexample: in a toroidal 100-cube, a body at x = 150 is not
reported as a border collision (as the claim says), but `update` moves it
to x = 151 with no modulo wrap — its position is NOT brought back into
`[0, dimensions]`, refuting the claimed toroidal wrap. The velocity is
unchanged. -/
theorem c7_toroidal_counterexample :
    c7U.toroidal = true ∧
    (¬ Collision.detect_border c7Body c7U) ∧
    (c7Body.update c7U).position.x = 151 ∧
    c7U.dimensions.x = 100 ∧ ¬ ((151 : ℝ) ≤ 100) ∧
    (c7Body.update c7U).velocity = c7Body.velocity := by
  refine ⟨rfl, ?_, ?_, rfl, by norm_num, ?_⟩
  · simp [Collision.detect_border, c7U]
  · simp [Matter.update, Universe.has_boundaries, c7U, c7Body, Vector.add]
    norm_num
  · simp [Matter.update, c7Body]

/-- C8: body-vs-body collision detection reports a collision precisely when
the Euclidean distance between the two positions is strictly less than the
sum of the two radii. -/
theorem c8_detect_objects_iff_distance (o1 o2 : Matter) :
    Collision.detect_objects o1 o2 ↔
      Real.sqrt ((o1.position.x - o2.position.x) ^ 2 + (o1.position.y - o2.position.y) ^ 2 +
        (o1.position.z - o2.position.z) ^ 2) < o1.radius + o2.radius := Iff.rfl

/-- C9: for a body with an empty debt queue, positive-mass, no border
collision on either tick and no other objects, `Motion.update` is a pure
function of the body's state: it succeeds on two consecutive ticks, leaves
the velocity unchanged both times, and moves the position by exactly the
velocity each time (the same delta twice, no hidden state). -/
theorem c9_update_pure_function (o : Matter) (u : Universe)
    (hdebt : o.debt = []) (hm : o.mass ≠ 0)
    (h1 : ¬ Collision.detect_border o u)
    (h2 : ¬ Collision.detect_border { o with position := o.position.add o.velocity } u) :
    ∃ o1 o2, Motion.update o u [] = some (o1, []) ∧ Motion.update o1 u [] = some (o2, []) ∧
      o1.velocity = o.velocity ∧ o2.velocity = o.velocity ∧
      o1.position = o.position.add o.velocity ∧
    o2.position = o1.position.add o1.velocity := by
  exact ⟨_, _, motion_update_no_collision o u hdebt hm h1,
    motion_update_no_collision
      { o with
        position := o.position.add o.velocity
        acceleration := some ⟨(pytrunc (o.velocity.x / o.mass) : ℝ),
          (pytrunc (o.velocity.y / o.mass) : ℝ), (pytrunc (o.velocity.z / o.mass) : ℝ)⟩ }
      u hdebt hm h2,
    rfl, rfl, rfl, rfl⟩

/-- C9 witness: the two-tick purity statement at a concrete force-free body
inside a bounded 100-cube with no other objects. -/
theorem c9_update_pure_function_witness :
    c9Body.debt = [] ∧ c9Body.mass ≠ 0 ∧
    (¬ Collision.detect_border c9Body c9U) ∧
    (¬ Collision.detect_border
      { c9Body with position := c9Body.position.add c9Body.velocity } c9U) ∧
    ∃ o1 o2, Motion.update c9Body c9U [] = some (o1, []) ∧
      Motion.update o1 c9U [] = some (o2, []) ∧
      o1.velocity = c9Body.velocity ∧ o2.velocity = c9Body.velocity ∧
      o1.position = c9Body.position.add c9Body.velocity ∧
      o2.position = o1.position.add o1.velocity := by
  have hp1 : ¬ Collision.detect_border c9Body c9U := by
    simp only [Collision.detect_border, c9Body, c9U]
    norm_num
  have hp2 : ¬ Collision.detect_border
      { c9Body with position := c9Body.position.add c9Body.velocity } c9U := by
    simp only [Collision.detect_border, c9Body, c9U, Vector.add]
    norm_num
  exact ⟨rfl, by norm_num [c9Body], hp1, hp2,
    c9_update_pure_function c9Body c9U rfl (by norm_num [c9Body]) hp1 hp2⟩

/-- C10: for a non-zero scalar, each component of `v / s` is the exact real
quotient truncated to an integer (it differs from the quotient by less
than 1 and is integer-valued), and consequently every successful
`normalize`, every acceleration stored by the third law, and every
quotient enqueued by `apply_force` has integer-valued components. -/
theorem c10_truediv_truncates (v : Vector) (s : ℝ) (hs : s ≠ 0) :
    (v.truediv s = some ⟨(pytrunc (v.x / s) : ℝ), (pytrunc (v.y / s) : ℝ),
       (pytrunc (v.z / s) : ℝ)⟩) ∧
    (∀ w, v.truediv s = some w →
       |w.x - v.x / s| < 1 ∧ |w.y - v.y / s| < 1 ∧ |w.z - v.z / s| < 1 ∧ IntComponents w) ∧
    (∀ a w, Vector.normalize a = some w → IntComponents w) ∧
    (∀ o o', ThirdLaw.apply o = some o' →
       ∃ acc, o'.acceleration = some acc ∧ IntComponents acc) ∧
    (∀ o f o', Matter.apply_force o f = some o' →
       ∃ q, o'.debt = o.debt ++ [q] ∧ IntComponents q) := by
  have hIC : ∀ (a : Vector) (t : ℝ),
      IntComponents ⟨(pytrunc (a.x / t) : ℝ), (pytrunc (a.y / t) : ℝ), (pytrunc (a.z / t) : ℝ)⟩ :=
    fun a t => ⟨⟨_, rfl⟩, ⟨_, rfl⟩, ⟨_, rfl⟩⟩
  refine ⟨truediv_eq v hs, ?_, ?_, ?_, ?_⟩
  · intro w hw
    obtain ⟨-, rfl⟩ := truediv_some hw
    exact ⟨pytrunc_cast_sub_abs_lt_one _, pytrunc_cast_sub_abs_lt_one _,
      pytrunc_cast_sub_abs_lt_one _, hIC v s⟩
  · intro a w hw
    obtain ⟨-, rfl⟩ := truediv_some hw
    exact hIC a a.magnitude
  · intro o o' h
    rw [ThirdLaw.apply] at h
    cases htd : o.velocity.truediv o.mass with
    | none => rw [htd] at h; cases h
    | some w =>
      rw [htd] at h
      obtain ⟨-, rfl⟩ := truediv_some htd
      cases h
      exact ⟨_, rfl, hIC o.velocity o.mass⟩
  · intro o f o' h
    rw [Matter.apply_force] at h
    cases htd : f.truediv o.mass with
    | none => rw [htd] at h; cases h
    | some w =>
      rw [htd] at h
      obtain ⟨-, rfl⟩ := truediv_some htd
      cases h
      exact ⟨_, rfl, hIC f o.mass⟩

/-- C10 witness: the truncation statement at the concrete vector (7, -7, 3)
divided by 2. -/
theorem c10_truediv_truncates_witness : (2:ℝ) ≠ 0 ∧
    ((Vector.mk 7 (-7) 3).truediv 2 =
       some ⟨(pytrunc ((Vector.mk 7 (-7) 3).x / 2) : ℝ),
         (pytrunc ((Vector.mk 7 (-7) 3).y / 2) : ℝ),
         (pytrunc ((Vector.mk 7 (-7) 3).z / 2) : ℝ)⟩) ∧
    (∀ w, (Vector.mk 7 (-7) 3).truediv 2 = some w →
       |w.x - (Vector.mk 7 (-7) 3).x / 2| < 1 ∧ |w.y - (Vector.mk 7 (-7) 3).y / 2| < 1 ∧
       |w.z - (Vector.mk 7 (-7) 3).z / 2| < 1 ∧ IntComponents w) ∧
    (∀ a w, Vector.normalize a = some w → IntComponents w) ∧
    (∀ o o', ThirdLaw.apply o = some o' →
       ∃ acc, o'.acceleration = some acc ∧ IntComponents acc) ∧
    (∀ o f o', Matter.apply_force o f = some o' →
       ∃ q, o'.debt = o.debt ++ [q] ∧ IntComponents q) :=
  ⟨by norm_num, c10_truediv_truncates ⟨7, -7, 3⟩ 2 (by norm_num)⟩

end Fizicks
